import Mathlib

/-!
Shallow embedding of the authorization core of the sabor-a-mi-tierra
backend (Express + Prisma), covering:

* the permission-matching middleware `requirePermission`
  (src/backend/src/shared/middleware/auth.ts),
* the session-backed authentication gate `authenticate` (same file),
* the `AuthService` operations `register`, `login`, `logout`,
  `changePassword`, `refreshSession`, `createSession`
  (src/backend/src/modules/identity/auth.service.ts),
* the error classes and `errorHandler` (shared/middleware/error-handler),
* the refresh route handler (src/backend/src/modules/identity/routes.ts),
* the batch structure of the three write groups the design calls atomic.

Database rows are modelled as Lean structures held in lists; entity ids
are `Nat` drawn from per-table counters (Prisma cuids are opaque and
fresh, which the counters capture); instants (`Date`) are `Nat`
milliseconds.  The JWT transport layer is modelled by handing
`authenticate` the session id that a verified token would carry, since
every claim below is about the server-side session checks, not about
signature cryptography.
-/

namespace Sabor

/-! ## Permission model (middleware/auth.ts) -/

/-- One entry of `roleAssignment.permissions` as built by `authenticate`:
`{ permission: rp.permission, scope: rp.scope?.name ?? null }`. -/
structure PermGrant where
  permissionName : String
  scope : Option String
deriving DecidableEq, Repr

/-- One element of `req.user.roles`: a role assignment flattened with the
role's granted permissions.  `organizationId` is `null` for a global
assignment. -/
structure HeldRole where
  roleName : String
  organizationId : Option String
  permissions : List PermGrant
deriving DecidableEq, Repr

/-- The `PermissionCheck` argument of `requirePermission`:
`{ permission, scope?, organizationId? }`. -/
structure PermissionCheck where
  permission : String
  scope : Option String := none
  organizationId : Option String := none
deriving DecidableEq, Repr

/-- The identity object `req.user` built by `authenticate`. -/
structure AuthenticatedUser where
  id : Nat
  email : String
  sessionId : Nat
  roles : List HeldRole
deriving DecidableEq, Repr

/-- JavaScript truthiness of an optional string field: `undefined`/`null`
and the empty string are falsy, every other string is truthy.  Used where
the middleware writes `if (check.organizationId && ...)` and
`!check.scope`. -/
def optTruthy : Option String → Bool
  | none => false
  | some s => !(s == "")

/-- The per-permission-entry test inside `requirePermission`:
`permissionMatch && scopeMatch` where
`permissionMatch = perm.permission.name === check.permission` and
`scopeMatch = !check.scope || perm.scope === check.scope`. -/
def permEntryMatch (check : PermissionCheck) (perm : PermGrant) : Bool :=
  (perm.permissionName == check.permission) &&
    (!(optTruthy check.scope) || perm.scope == check.scope)

/-- The per-role-assignment test inside `requirePermission`: bail out with
`false` when the check carries a (truthy) organizationId that differs
(strict `!==`) from the assignment's, otherwise search the flattened
permission entries. -/
def roleAssignmentSatisfies (check : PermissionCheck) (ra : HeldRole) : Bool :=
  if optTruthy check.organizationId && !(ra.organizationId == check.organizationId) then
    false
  else
    ra.permissions.any (permEntryMatch check)

/-- The error taxonomy of error-handler.ts (`AppError` subclasses). -/
inductive AppError where
  | unauthorized (message : String)
  | forbidden (message : String)
  | notFound (resource : String)
  | validation (message : String)
  | conflict (message : String)
deriving DecidableEq, Repr

/-- Field `AppError.statusCode` as fixed by each subclass constructor. -/
def AppError.statusCode : AppError → Nat
  | .unauthorized _ => 401
  | .forbidden _ => 403
  | .notFound _ => 404
  | .validation _ => 400
  | .conflict _ => 409

/-- Field `AppError.code` as fixed by each subclass constructor. -/
def AppError.code : AppError → String
  | .unauthorized _ => "UNAUTHORIZED"
  | .forbidden _ => "FORBIDDEN"
  | .notFound _ => "NOT_FOUND"
  | .validation _ => "VALIDATION_ERROR"
  | .conflict _ => "CONFLICT"

/-- Field `AppError.message` as passed to the `Error` superclass
(`NotFoundError` renders "<resource> not found"). -/
def AppError.message : AppError → String
  | .unauthorized m => m
  | .forbidden m => m
  | .notFound r => r ++ " not found"
  | .validation m => m
  | .conflict m => m

/-- Middleware `requirePermission(...checks)` applied to a request whose `req.user`
is `user`: Unauthorized when no identity is attached, Forbidden when no
check is satisfied by any held role assignment, success otherwise. -/
def requirePermission (checks : List PermissionCheck)
    (user : Option AuthenticatedUser) : Except AppError Unit :=
  match user with
  | none => .error (.unauthorized "Authentication required")
  | some u =>
      if checks.any (fun check => u.roles.any (roleAssignmentSatisfies check)) then
        .ok ()
      else
        .error (.forbidden "Insufficient permissions")

/-! ## Persistence store (the Prisma tables the identity core touches) -/

/-- A row of the `User` table (the columns the core reads). -/
structure User where
  id : Nat
  email : String
  passwordHash : String
  isActive : Bool
  lastLoginAt : Option Nat
deriving DecidableEq, Repr

/-- A row of the `Session` table.  The random bearer and CSRF token
columns are opaque secrets no verified claim inspects, so they are not
carried. -/
structure Session where
  id : Nat
  userId : Nat
  expiresAt : Nat
deriving DecidableEq, Repr

/-- A row of the `Profile` table (the columns `register` writes). -/
structure Profile where
  userId : Nat
  firstName : String
  lastName : String
deriving DecidableEq, Repr

/-- A row of the `Role` table together with its `RolePermission` grants
(the include-tree `role.permissions` flattened to name/scope pairs). -/
structure RoleRow where
  id : Nat
  name : String
  permissions : List PermGrant
deriving DecidableEq, Repr

/-- A row of the `UserRoleAssignment` table. -/
structure RoleAssignmentRow where
  userId : Nat
  roleId : Nat
  organizationId : Option String
deriving DecidableEq, Repr

/-- The persistence store: the tables, plus the id counters standing for
Prisma's fresh cuid generation. -/
structure Store where
  users : List User
  profiles : List Profile
  sessions : List Session
  roles : List RoleRow
  roleAssignments : List RoleAssignmentRow
  nextUserId : Nat
  nextSessionId : Nat
deriving DecidableEq, Repr

/-- Lookup `prisma.user.findUnique({ where: { email } })`. -/
def findUserByEmail (db : Store) (email : String) : Option User :=
  db.users.find? (fun u => u.email == email)

/-- Lookup `prisma.user.findUnique({ where: { id } })`. -/
def findUserById (db : Store) (uid : Nat) : Option User :=
  db.users.find? (fun u => u.id == uid)

/-- Lookup `prisma.session.findUnique({ where: { id } })`. -/
def findSession (db : Store) (sid : Nat) : Option Session :=
  db.sessions.find? (fun s => s.id == sid)

/-- Lookup `prisma.role.findUnique({ where: { name } })`. -/
def findRoleByName (db : Store) (name : String) : Option RoleRow :=
  db.roles.find? (fun r => r.name == name)

/-- Normalization `email.toLowerCase()`: character-wise ASCII lowering (the behaviour
of the standard lowercase mapping on the ASCII emails this service
normalizes; stated over the character list so terms reduce). -/
def lowerAscii (s : String) : String := ⟨s.data.map Char.toLower⟩

/-- Session lifetime fixed at creation: `expiresAt.setDate(getDate() + 7)`,
seven days in milliseconds. -/
def sessionLifetimeMs : Nat := 7 * 24 * 60 * 60 * 1000

/-- Operation `AuthService.createSession`: persist a session expiring seven days
from now for the given user; the row id is fresh.  (The JWT signed over
`{userId, sessionId}` is the transport form of the session id.) -/
def createSession (db : Store) (userId : Nat) (now : Nat) : Session × Store :=
  let s : Session := { id := db.nextSessionId, userId := userId,
                       expiresAt := now + sessionLifetimeMs }
  (s, { db with sessions := s :: db.sessions, nextSessionId := db.nextSessionId + 1 })

/-- Deletion `prisma.session.delete({ where: { id } })` (applied only to rows known
to exist in the source flows). -/
def deleteSession (db : Store) (sid : Nat) : Store :=
  { db with sessions := db.sessions.filter (fun s => !(s.id == sid)) }

/-- The flattened `req.user.roles` that `authenticate` builds from the
user's role assignments via the nested include (each assignment's role and
its permission grants; the foreign key guarantees the role row exists). -/
def heldRolesOf (db : Store) (uid : Nat) : List HeldRole :=
  (db.roleAssignments.filter (fun ra => ra.userId == uid)).filterMap (fun ra =>
    (db.roles.find? (fun r => r.id == ra.roleId)).map (fun r =>
      { roleName := r.name, organizationId := ra.organizationId,
        permissions := r.permissions }))

/-- The `authenticate` middleware, given the session id carried by a
signature-verified `auth_token` cookie (`none` when the cookie is absent
or the JWT fails verification): load the session, reject when missing or
`session.expiresAt < new Date()`, reject when the owning user is
deactivated, else attach the flattened identity.  The owning user row
always exists through the required Prisma relation, so the lookup-miss
branch is unreachable for well-formed stores. -/
def authenticate (db : Store) (token : Option Nat) (now : Nat) :
    Except AppError AuthenticatedUser :=
  match token with
  | none => .error (.unauthorized "No authentication token provided")
  | some sid =>
      match findSession db sid with
      | none => .error (.unauthorized "Session expired or invalid")
      | some s =>
          if s.expiresAt < now then
            .error (.unauthorized "Session expired or invalid")
          else
            match findUserById db s.userId with
            | none => .error (.unauthorized "Session expired or invalid")
            | some u =>
                if !u.isActive then
                  .error (.unauthorized "User account is deactivated")
                else
                  .ok { id := u.id, email := u.email, sessionId := s.id,
                        roles := heldRolesOf db u.id }

/-! ## AuthService operations -/

/-- Modelled from the spec: the credential-store implementation
(shared/utils hashPassword and verifyPassword, spec section 4.1) is not
among the provided sources; it is modelled as an abstract one-way tagging
so that verification is a boolean outcome with
`verifyPassword p (hashPassword p) = true`. -/
def hashPassword (password : String) : String :=
  "argon2id$" ++ password

/-- Modelled from the spec: boolean verification against a stored
credential (see `hashPassword`). -/
def verifyPassword (password hash : String) : Bool :=
  hash == hashPassword password

/-- Shape `AuthResult` as returned by register/login/refresh: the user, and the
new session's transport data (the session id stands for the signed token;
the CSRF secret is opaque). -/
structure AuthResult where
  userId : Nat
  email : String
  sessionId : Nat
  expiresAt : Nat
deriving DecidableEq, Repr

/-- Input `RegisterInput` (validated by the excluded schema layer). -/
structure RegisterInput where
  email : String
  password : String
  firstName : String
  lastName : String
deriving DecidableEq, Repr

/-- Input `LoginInput`. -/
structure LoginInput where
  email : String
  password : String
deriving DecidableEq, Repr

/-- Input `ChangePasswordInput`. -/
structure ChangePasswordInput where
  currentPassword : String
  newPassword : String
deriving DecidableEq, Repr

/-- Operation `AuthService.register`: Conflict when the lowercased email is taken;
otherwise create the user with its profile, assign the default `consumer`
role only when that role row exists (a missing role is silently skipped),
create a session and return the auth result. -/
def register (db : Store) (input : RegisterInput) (now : Nat) :
    Except AppError (AuthResult × Store) :=
  match findUserByEmail db (lowerAscii input.email) with
  | some _ => .error (.conflict "Email already registered")
  | none =>
      let user : User := { id := db.nextUserId, email := lowerAscii input.email,
                           passwordHash := hashPassword input.password,
                           isActive := true, lastLoginAt := none }
      let profile : Profile := { userId := user.id, firstName := input.firstName,
                                 lastName := input.lastName }
      let db1 : Store := { db with users := user :: db.users,
                                   profiles := profile :: db.profiles,
                                   nextUserId := db.nextUserId + 1 }
      let db2 : Store :=
        match findRoleByName db1 "consumer" with
        | some r =>
            { db1 with roleAssignments :=
                { userId := user.id, roleId := r.id, organizationId := none }
                  :: db1.roleAssignments }
        | none => db1
      let sp := createSession db2 user.id now
      .ok ({ userId := user.id, email := user.email,
             sessionId := sp.1.id, expiresAt := sp.1.expiresAt }, sp.2)

/-- Operation `AuthService.login`: unknown lowercased email and failed password
verification both raise `UnauthorizedError('Invalid email or password')`;
a deactivated account raises a distinct message; success stamps
`lastLoginAt` and creates a session. -/
def login (db : Store) (input : LoginInput) (now : Nat) :
    Except AppError (AuthResult × Store) :=
  match findUserByEmail db (lowerAscii input.email) with
  | none => .error (.unauthorized "Invalid email or password")
  | some user =>
      if !user.isActive then
        .error (.unauthorized "Account is deactivated")
      else if !(verifyPassword input.password user.passwordHash) then
        .error (.unauthorized "Invalid email or password")
      else
        let db1 : Store :=
          { db with users := db.users.map (fun u =>
              if u.id == user.id then { u with lastLoginAt := some now } else u) }
        let sp := createSession db1 user.id now
        .ok ({ userId := user.id, email := user.email,
               sessionId := sp.1.id, expiresAt := sp.1.expiresAt }, sp.2)

/-- Operation `AuthService.logout`: delete the session when it exists; deleting an
already-gone session is a no-op. -/
def logout (db : Store) (sessionId : Nat) : Store :=
  match findSession db sessionId with
  | none => db
  | some _ => deleteSession db sessionId

/-- Operation `AuthService.changePassword`: NotFound for an unknown user,
Unauthorized for a wrong current password; otherwise one
`prisma.$transaction` updates the password hash and deletes every session
of the user. -/
def changePassword (db : Store) (userId : Nat) (input : ChangePasswordInput) :
    Except AppError Store :=
  match findUserById db userId with
  | none => .error (.notFound "User")
  | some user =>
      if !(verifyPassword input.currentPassword user.passwordHash) then
        .error (.unauthorized "Current password is incorrect")
      else
        .ok { db with
          users := db.users.map (fun u =>
            if u.id == userId then { u with passwordHash := hashPassword input.newPassword }
            else u),
          sessions := db.sessions.filter (fun s => !(s.userId == userId)) }

/-- Operation `AuthService.refreshSession`: load the session (with its user); return
`null` when it is missing or `session.expiresAt < new Date()` — the owning
user's `isActive` flag is not consulted; otherwise create a replacement
session, delete the old row, and return the new transport data. -/
def refreshSession (db : Store) (sessionId : Nat) (now : Nat) :
    Option AuthResult × Store :=
  match findSession db sessionId with
  | none => (none, db)
  | some s =>
      if s.expiresAt < now then
        (none, db)
      else
        let sp := createSession db s.userId now
        let db2 := deleteSession sp.2 sessionId
        (some { userId := s.userId,
                email := ((findUserById db s.userId).map User.email).getD "",
                sessionId := sp.1.id, expiresAt := sp.1.expiresAt }, db2)

/-! ## Responses, the error handler, and the refresh route -/

/-- The caller-visible shape of a response: status, machine code, message,
and the cookie operations performed on it. -/
structure HttpResponse where
  status : Nat
  code : Option String
  message : Option String
  setCookies : List String
  clearedCookies : List String
deriving DecidableEq, Repr

/-- Handler `errorHandler` on an `AppError`: render status, code and message from
the error object; no cookie is set or cleared on this path. -/
def errorHandler (err : AppError) : HttpResponse :=
  { status := err.statusCode, code := some err.code,
    message := some err.message, setCookies := [], clearedCookies := [] }

/-- The `POST /auth/refresh` handler body (after `authenticate`): a `null`
refresh outcome clears the `auth_token` cookie and answers
401 SESSION_EXPIRED; a successful refresh sets the new cookie. -/
def refreshRoute (db : Store) (sessionId : Nat) (now : Nat) :
    HttpResponse × Store :=
  match refreshSession db sessionId now with
  | (none, db2) =>
      ({ status := 401, code := some "SESSION_EXPIRED",
         message := some "Session expired", setCookies := [],
         clearedCookies := ["auth_token"] }, db2)
  | (some _, db2) =>
      ({ status := 200, code := none, message := none,
         setCookies := ["auth_token"], clearedCookies := [] }, db2)

/-! ## Write batches of the three groups the design calls atomic -/

/-- The individual persistence writes of the three operation groups. -/
inductive DbWrite where
  | updateUserPassword (userId : Nat)
  | deleteSessionsOfUser (userId : Nat)
  | deleteOperatingHours (salesInstanceId : Nat)
  | createOperatingHours (salesInstanceId : Nat) (rows : Nat)
  | revokeActiveConsents (profileId : Nat) (consentType : String)
  | createConsent (profileId : Nat) (consentType : String)
deriving DecidableEq, Repr

/-- How a handler issues writes: grouped in one `prisma.$transaction`, or
as a stand-alone awaited call. -/
inductive DbBatch where
  | transact (writes : List DbWrite)
  | single (write : DbWrite)
deriving DecidableEq, Repr

/-- The writes a batch performs. -/
def DbBatch.writes : DbBatch → List DbWrite
  | .transact ws => ws
  | .single w => [w]

/-- The write sequence of `changePassword`: one `$transaction` holding the
password update and the deleteMany of the user's sessions. -/
def changePasswordBatches (userId : Nat) : List DbBatch :=
  [.transact [.updateUserPassword userId, .deleteSessionsOfUser userId]]

/-- The write sequence of `PUT /sales-instances/:id/hours`: one
`$transaction` holding the deleteMany of existing rows and the createMany
of the new ones. -/
def replaceHoursBatches (salesInstanceId rows : Nat) : List DbBatch :=
  [.transact [.deleteOperatingHours salesInstanceId,
              .createOperatingHours salesInstanceId rows]]

/-- The write sequence of `POST /profile/consents`: two separately awaited
calls — `consent.updateMany` stamping `revokedAt`, then `consent.create` —
with no surrounding `$transaction`. -/
def consentBatches (profileId : Nat) (consentType : String) : List DbBatch :=
  [.single (.revokeActiveConsents profileId consentType),
   .single (.createConsent profileId consentType)]

/-- The writes that have taken effect once the first `k` batches have
completed and execution then stops (a failure point between batches; a
transaction is itself all-or-nothing). -/
def appliedAfter (bs : List DbBatch) (k : Nat) : List DbWrite :=
  ((bs.take k).map DbBatch.writes).flatten

/-- All writes of a sequence of batches. -/
def allWrites (bs : List DbBatch) : List DbWrite :=
  (bs.map DbBatch.writes).flatten

/-- A write group is all-or-nothing when every failure point leaves either
none of its writes applied or all of them. -/
def allOrNothing (bs : List DbBatch) : Prop :=
  ∀ k, appliedAfter bs k = [] ∨ appliedAfter bs k = allWrites bs

/-! ## The public operations as store transformers -/

/-- A call of one of the identity endpoints that may touch the session
table, used to state that a deleted session id stays invalid across any
subsequent activity. -/
inductive ApiOp where
  | opRegister (input : RegisterInput) (now : Nat)
  | opLogin (input : LoginInput) (now : Nat)
  | opLogout (sessionId : Nat)
  | opChangePassword (userId : Nat) (input : ChangePasswordInput)
  | opRefresh (sessionId : Nat) (now : Nat)

/-- The store after one endpoint call (an error leaves the store as the
service found it). -/
def applyOp (db : Store) : ApiOp → Store
  | .opRegister input now =>
      match register db input now with
      | .ok rs => rs.2
      | .error _ => db
  | .opLogin input now =>
      match login db input now with
      | .ok rs => rs.2
      | .error _ => db
  | .opLogout sid => logout db sid
  | .opChangePassword uid input =>
      match changePassword db uid input with
      | .ok db2 => db2
      | .error _ => db
  | .opRefresh sid now => (refreshSession db sid now).2

/-- The store after a sequence of endpoint calls. -/
def applyOps (db : Store) (ops : List ApiOp) : Store :=
  ops.foldl applyOp db

/-- Store well-formedness for session freshness: every session row's id is
below the id counter (true of every store Prisma builds, since ids are
generated fresh). -/
def sessionIdsBounded (db : Store) : Prop :=
  ∀ s ∈ db.sessions, s.id < db.nextSessionId

/-! ## Concrete fixtures used by witnesses and counterexamples -/

/-- An identity holding one role assignment for organization `org2` whose
role grants `menu.update` (unscoped). -/
def org2Manager : AuthenticatedUser :=
  { id := 1, email := "manager@example.com", sessionId := 0,
    roles := [{ roleName := "franchise_manager", organizationId := some "org2",
                permissions := [{ permissionName := "menu.update", scope := none }] }] }

/-- The organization-scoped requirement `{permission: "menu.update",
organizationId: "org1"}`. -/
def org1MenuUpdate : PermissionCheck :=
  { permission := "menu.update", organizationId := some "org1" }

/-- An identity whose only grant for `menu.read` carries a null scope. -/
def nullScopeReader : AuthenticatedUser :=
  { id := 2, email := "reader@example.com", sessionId := 0,
    roles := [{ roleName := "consumer", organizationId := none,
                permissions := [{ permissionName := "menu.read", scope := none }] }] }

/-- The scoped requirement `{permission: "menu.read", scope: "self"}`. -/
def selfMenuRead : PermissionCheck :=
  { permission := "menu.read", scope := some "self" }

/-! ## C1 — organization-scoped requirements demand an exact match -/

/-- C1: when a permission requirement carries a (truthy) organizationId,
an identity none of whose role assignments carries exactly that
organizationId — whether they carry a different organization or a global
`null` one — is denied with Forbidden, no matter what permissions the
roles grant. -/
theorem orgScoped_requirement_denied_without_exact_org
    (u : AuthenticatedUser) (check : PermissionCheck)
    (hset : optTruthy check.organizationId = true)
    (hdiff : ∀ ra ∈ u.roles, ra.organizationId ≠ check.organizationId) :
    requirePermission [check] (some u) = .error (.forbidden "Insufficient permissions") := by
  have hnone : u.roles.any (roleAssignmentSatisfies check) = false := by
    rw [List.any_eq_false]
    intro ra hra
    have hne : (ra.organizationId == check.organizationId) = false := by
      exact beq_false_of_ne (hdiff ra hra)
    simp [roleAssignmentSatisfies, hset, hne]
  simp [requirePermission, hnone]

/-- Witness for C1: the identity holding only an `org2` assignment that
grants `menu.update` is denied the `org1`-scoped `menu.update`
requirement. -/
theorem orgScoped_requirement_denied_without_exact_org_witness :
    requirePermission [org1MenuUpdate] (some org2Manager)
      = .error (.forbidden "Insufficient permissions") :=
  orgScoped_requirement_denied_without_exact_org org2Manager org1MenuUpdate
    (by decide) (by decide)

/-! ## C2 — a null-scope grant does not cover a scoped requirement -/

/-- C2 counterexample: an identity whose role grants the required
permission with a `null` scope is denied a requirement that sets a scope
(`menu.read` under scope `self`), refuting the reading that a null-scope
grant covers any required scope. -/
theorem nullScope_grant_fails_scoped_requirement :
    requirePermission [selfMenuRead] (some nullScopeReader)
      = .error (.forbidden "Insufficient permissions") := rfl

/-- C2 amended: a grant entry whose scope is `null` and whose permission
name equals the requirement's matches exactly when the requirement's
scope is unset (falsy); in particular it never satisfies a requirement
whose scope is a non-empty string. -/
theorem nullScope_entry_matches_iff_requirement_unscoped
    (check : PermissionCheck) (perm : PermGrant)
    (hname : perm.permissionName = check.permission)
    (hscope : perm.scope = none) :
    permEntryMatch check perm = !(optTruthy check.scope) := by
  unfold permEntryMatch
  rw [hname, hscope]
  cases hs : check.scope with
  | none => simp [optTruthy]
  | some s =>
      cases he : (s == "") with
      | true => simp [optTruthy, he]
      | false => simp [optTruthy, he]

/-- Witness for C2's amended statement: the null-scope `menu.read` grant
evaluated against the `self`-scoped requirement. -/
theorem nullScope_entry_matches_iff_requirement_unscoped_witness :
    permEntryMatch selfMenuRead { permissionName := "menu.read", scope := none }
      = !(optTruthy selfMenuRead.scope) :=
  nullScope_entry_matches_iff_requirement_unscoped selfMenuRead
    { permissionName := "menu.read", scope := none } (by decide) rfl

/-! ## C9 — an empty requirement list always denies -/

/-- C9: `requirePermission()` configured with zero checks rejects every
authenticated identity with Forbidden: the disjunction over an empty list
of requirements is false. -/
theorem emptyChecks_always_forbidden (u : AuthenticatedUser) :
    requirePermission [] (some u) = .error (.forbidden "Insufficient permissions") := by
  simp [requirePermission]

/-! ## C7 — unknown email and wrong password are rendered identically -/

/-- C7: a login attempt whose email matches no user and a login attempt
whose user exists (active) but whose password fails verification produce
the very same `UnauthorizedError` with the character-for-character
identical message "Invalid email or password". -/
theorem login_unknown_email_and_wrong_password_same_error
    (db : Store) (i1 i2 : LoginInput) (now1 now2 : Nat) (u : User)
    (h1 : findUserByEmail db (lowerAscii i1.email) = none)
    (h2 : findUserByEmail db (lowerAscii i2.email) = some u)
    (hact : u.isActive = true)
    (hbad : verifyPassword i2.password u.passwordHash = false) :
    login db i1 now1 = .error (.unauthorized "Invalid email or password") ∧
    login db i2 now2 = .error (.unauthorized "Invalid email or password") := by
  constructor
  · simp [login, h1]
  · simp [login, h2, hact, hbad]

/-- A store holding one active user `cook@example.com` with the credential
for password `Secret123`. -/
def loginFixtureDb : Store :=
  { users := [{ id := 0, email := "cook@example.com",
                passwordHash := hashPassword "Secret123",
                isActive := true, lastLoginAt := none }],
    profiles := [], sessions := [], roles := [], roleAssignments := [],
    nextUserId := 1, nextSessionId := 0 }

/-- Witness for C7: an unknown email and a wrong password against
`loginFixtureDb` yield the identical error. -/
theorem login_unknown_email_and_wrong_password_same_error_witness :
    login loginFixtureDb { email := "ghost@example.com", password := "Secret123" } 5
      = .error (.unauthorized "Invalid email or password") ∧
    login loginFixtureDb { email := "cook@example.com", password := "WrongPass" } 6
      = .error (.unauthorized "Invalid email or password") :=
  login_unknown_email_and_wrong_password_same_error loginFixtureDb
    { email := "ghost@example.com", password := "Secret123" }
    { email := "cook@example.com", password := "WrongPass" } 5 6
    { id := 0, email := "cook@example.com", passwordHash := hashPassword "Secret123",
      isActive := true, lastLoginAt := none }
    rfl rfl rfl rfl

/-! ## C10 — register tolerates a missing default role -/

/-- An empty store: no users, sessions or roles (in particular the
`consumer` role row is absent). -/
def emptyStore : Store :=
  { users := [], profiles := [], sessions := [], roles := [],
    roleAssignments := [], nextUserId := 0, nextSessionId := 0 }

/-- The registration input used by the C10 witness. -/
def c10Input : RegisterInput :=
  { email := "New@Example.com", password := "Secret123",
    firstName := "Ana", lastName := "Lopez" }

/-- C10: when the default `consumer` role row is absent, `register` still
succeeds for a fresh email: the user row, its profile and a session are
created and returned, the role-assignment table is untouched, and the new
user holds zero role assignments; no error reports the missing role. -/
theorem register_succeeds_without_consumer_role
    (db : Store) (input : RegisterInput) (now : Nat)
    (hemail : findUserByEmail db (lowerAscii input.email) = none)
    (hrole : findRoleByName db "consumer" = none)
    (hb : ∀ ra ∈ db.roleAssignments, ra.userId < db.nextUserId) :
    ∃ r db2, register db input now = .ok (r, db2) ∧
      (∃ u, findUserById db2 r.userId = some u ∧ u.email = lowerAscii input.email) ∧
      (∃ p, p ∈ db2.profiles ∧ p.userId = r.userId) ∧
      (∃ s, findSession db2 r.sessionId = some s ∧ s.userId = r.userId) ∧
      db2.roleAssignments = db.roleAssignments ∧
      db2.roleAssignments.filter (fun ra => ra.userId == r.userId) = [] := by
  have hrole1 : List.find? (fun r => r.name == "consumer") db.roles = none := hrole
  refine ⟨{ userId := db.nextUserId, email := lowerAscii input.email,
            sessionId := db.nextSessionId, expiresAt := now + sessionLifetimeMs },
          { users := { id := db.nextUserId, email := lowerAscii input.email,
                       passwordHash := hashPassword input.password,
                       isActive := true, lastLoginAt := none } :: db.users,
            profiles := { userId := db.nextUserId, firstName := input.firstName,
                          lastName := input.lastName } :: db.profiles,
            sessions := { id := db.nextSessionId, userId := db.nextUserId,
                          expiresAt := now + sessionLifetimeMs } :: db.sessions,
            roles := db.roles, roleAssignments := db.roleAssignments,
            nextUserId := db.nextUserId + 1, nextSessionId := db.nextSessionId + 1 },
          ?_, ?_, ?_, ?_, rfl, ?_⟩
  · simp [register, hemail, findRoleByName, hrole1, createSession]
  · exact ⟨{ id := db.nextUserId, email := lowerAscii input.email,
             passwordHash := hashPassword input.password,
             isActive := true, lastLoginAt := none }, by simp [findUserById], rfl⟩
  · exact ⟨{ userId := db.nextUserId, firstName := input.firstName,
             lastName := input.lastName }, List.mem_cons_self _ _, rfl⟩
  · exact ⟨{ id := db.nextSessionId, userId := db.nextUserId,
             expiresAt := now + sessionLifetimeMs }, by simp [findSession], rfl⟩
  · rw [List.filter_eq_nil_iff]
    intro ra hra
    have h := hb ra hra
    simp only [beq_iff_eq]
    omega

/-- Witness for C10: registering against the empty store (no `consumer`
role) succeeds with zero role assignments. -/
theorem register_succeeds_without_consumer_role_witness :
    ∃ r db2, register emptyStore c10Input 0 = .ok (r, db2) ∧
      (∃ u, findUserById db2 r.userId = some u ∧ u.email = lowerAscii c10Input.email) ∧
      (∃ p, p ∈ db2.profiles ∧ p.userId = r.userId) ∧
      (∃ s, findSession db2 r.sessionId = some s ∧ s.userId = r.userId) ∧
      db2.roleAssignments = emptyStore.roleAssignments ∧
      db2.roleAssignments.filter (fun ra => ra.userId == r.userId) = [] :=
  register_succeeds_without_consumer_role emptyStore c10Input 0 rfl rfl (by simp [emptyStore])

/-! ## C5 — what refresh actually checks -/

/-- A store holding a deactivated user who still owns an unexpired
session (id 0, expiry 100). -/
def inactiveUserDb : Store :=
  { users := [{ id := 0, email := "gone@example.com",
                passwordHash := hashPassword "pw",
                isActive := false, lastLoginAt := none }],
    profiles := [], sessions := [{ id := 0, userId := 0, expiresAt := 100 }],
    roles := [], roleAssignments := [], nextUserId := 1, nextSessionId := 1 }

/-- C5 counterexample: for an unexpired session owned by a deactivated
user, `refreshSession` does not return null — it creates and returns a
replacement — because it never consults the owner's `isActive` flag. -/
theorem refresh_ignores_inactive_owner :
    findUserById inactiveUserDb 0
        = some { id := 0, email := "gone@example.com",
                 passwordHash := hashPassword "pw",
                 isActive := false, lastLoginAt := none } ∧
    findSession inactiveUserDb 0 = some { id := 0, userId := 0, expiresAt := 100 } ∧
    (refreshSession inactiveUserDb 0 5).1
        = some { userId := 0, email := "gone@example.com", sessionId := 1,
                 expiresAt := 5 + sessionLifetimeMs } :=
  ⟨rfl, rfl, rfl⟩

/-- C5 amended: `refreshSession` returns null exactly when the session
row is absent or strictly expired (`expiresAt < now`) — the owner's
active flag plays no part and the boundary instant `now = expiresAt`
still refreshes — and a null outcome leaves the store untouched (no
replacement is created). -/
theorem refresh_null_iff_missing_or_strictly_expired
    (db : Store) (sid now : Nat) :
    ((refreshSession db sid now).1 = none ↔
      ∀ s, findSession db sid = some s → s.expiresAt < now) ∧
    ((refreshSession db sid now).1 = none → (refreshSession db sid now).2 = db) := by
  unfold refreshSession
  cases h : findSession db sid with
  | none => simp
  | some s =>
      by_cases hexp : s.expiresAt < now
      · simp [hexp]
      · simp [hexp]

/-- Witness for C5's amended statement: the session of `inactiveUserDb`
is unexpired at instant 5, so refresh does not return null; and on the
empty store refresh returns null and leaves the store unchanged. -/
theorem refresh_null_iff_missing_or_strictly_expired_witness :
    ((refreshSession inactiveUserDb 0 5).1 = none ↔
      ∀ s, findSession inactiveUserDb 0 = some s → s.expiresAt < 5) ∧
    (refreshSession emptyStore 0 5).2 = emptyStore :=
  ⟨(refresh_null_iff_missing_or_strictly_expired inactiveUserDb 0 5).1,
   (refresh_null_iff_missing_or_strictly_expired emptyStore 0 5).2 rfl⟩

/-! ## C6 — the expiry boundary of validate -/

/-- A store holding an active user owning session 0 with expiry 100. -/
def boundaryDb : Store :=
  { users := [{ id := 0, email := "chef@example.com",
                passwordHash := hashPassword "pw",
                isActive := true, lastLoginAt := none }],
    profiles := [], sessions := [{ id := 0, userId := 0, expiresAt := 100 }],
    roles := [], roleAssignments := [], nextUserId := 1, nextSessionId := 1 }

/-- C6 counterexample: at the exact expiry instant `now = T` (here
`T = 100`), `validate` still accepts the session — the check is
`session.expiresAt < new Date()`, so the boundary instant is not
rejected. -/
theorem validate_accepts_at_exact_expiry_instant :
    authenticate boundaryDb (some 0) 100
      = .ok { id := 0, email := "chef@example.com", sessionId := 0, roles := [] } :=
  rfl

/-- C6 amended: for a stored session with expiry `T` whose owner is
active, `validate` accepts at every instant `≤ T` (the boundary included)
and rejects with Unauthenticated at every instant `> T`. -/
theorem validate_boundary (db : Store) (s : Session) (u : User) (now : Nat)
    (hs : findSession db s.id = some s)
    (hu : findUserById db s.userId = some u)
    (hact : u.isActive = true) :
    (now ≤ s.expiresAt →
      authenticate db (some s.id) now
        = .ok { id := u.id, email := u.email, sessionId := s.id,
                roles := heldRolesOf db u.id }) ∧
    (s.expiresAt < now →
      authenticate db (some s.id) now
        = .error (.unauthorized "Session expired or invalid")) := by
  constructor
  · intro hle
    have hnot : ¬ s.expiresAt < now := Nat.not_lt.mpr hle
    simp [authenticate, hs, hnot, hu, hact]
  · intro hlt
    simp [authenticate, hs, hlt]

/-- Witness for C6's amended statement: session 0 of `boundaryDb`
(expiry 100) is accepted at instant 100 and rejected at instant 101. -/
theorem validate_boundary_witness :
    authenticate boundaryDb (some 0) 100
      = .ok { id := 0, email := "chef@example.com", sessionId := 0,
              roles := heldRolesOf boundaryDb 0 } ∧
    authenticate boundaryDb (some 0) 101
      = .error (.unauthorized "Session expired or invalid") :=
  ⟨(validate_boundary boundaryDb { id := 0, userId := 0, expiresAt := 100 }
      { id := 0, email := "chef@example.com", passwordHash := hashPassword "pw",
        isActive := true, lastLoginAt := none } 100 rfl rfl rfl).1 (by decide),
   (validate_boundary boundaryDb { id := 0, userId := 0, expiresAt := 100 }
      { id := 0, email := "chef@example.com", passwordHash := hashPassword "pw",
        isActive := true, lastLoginAt := none } 101 rfl rfl rfl).2 (by decide)⟩

/-! ## C8 — which failures clear the credential cookie -/

/-- C8 counterexample: an Unauthenticated failure rendered by the generic
`errorHandler` (here the missing-token rejection of `authenticate`)
answers 401 without clearing any cookie, so not every Unauthenticated
response clears `auth_token`. -/
theorem unauthenticated_via_errorHandler_keeps_cookie :
    (errorHandler (.unauthorized "No authentication token provided")).status = 401 ∧
    (errorHandler (.unauthorized "No authentication token provided")).clearedCookies = [] :=
  ⟨rfl, rfl⟩

/-- C8 amended: responses rendered by the generic `errorHandler` — both
Forbidden and Unauthenticated — never clear (or set) a cookie; the one
failure path that does clear the stale `auth_token` cookie is the refresh
handler's session-expired 401, taken exactly when `refreshSession`
returns null. -/
theorem cookie_clearing_on_failures (e : AppError) (db : Store) (sid now : Nat) :
    (errorHandler e).clearedCookies = [] ∧
    (errorHandler e).setCookies = [] ∧
    ((refreshSession db sid now).1 = none →
      (refreshRoute db sid now).1.status = 401 ∧
      (refreshRoute db sid now).1.clearedCookies = ["auth_token"]) := by
  refine ⟨rfl, rfl, ?_⟩
  intro h
  rcases hr : refreshSession db sid now with ⟨o, db2⟩
  rw [hr] at h
  simp only at h
  subst h
  simp [refreshRoute, hr]

/-- Witness for C8's amended statement: a Forbidden error clears nothing,
and refreshing the absent session 0 of the empty store answers 401 and
clears `auth_token`. -/
theorem cookie_clearing_on_failures_witness :
    (errorHandler (.forbidden "Insufficient permissions")).clearedCookies = [] ∧
    (errorHandler (.forbidden "Insufficient permissions")).setCookies = [] ∧
    ((refreshRoute emptyStore 0 5).1.status = 401 ∧
     (refreshRoute emptyStore 0 5).1.clearedCookies = ["auth_token"]) := by
  have h := cookie_clearing_on_failures (.forbidden "Insufficient permissions")
    emptyStore 0 5
  exact ⟨h.1, h.2.1, h.2.2 rfl⟩

/-! ## C3 — which write groups are transactions -/

/-- C3 counterexample: the consent revoke-then-create group is not
all-or-nothing — stopping after its first batch leaves the revoke applied
and the create not applied. -/
theorem consent_group_not_atomic :
    ¬ allOrNothing (consentBatches 0 "marketing") := by
  intro h
  have h1 := h 1
  simp [appliedAfter, allWrites, consentBatches, DbBatch.writes] at h1

/-- C3 amended: the credential-update-plus-session-invalidation group and
the operating-hours replace group each execute as one all-or-nothing
`$transaction`, but the consent revoke-then-create group is issued as two
separate writes and is not all-or-nothing. -/
theorem write_group_atomicity (uid iid rows pid : Nat) (consentType : String) :
    allOrNothing (changePasswordBatches uid) ∧
    allOrNothing (replaceHoursBatches iid rows) ∧
    ¬ allOrNothing (consentBatches pid consentType) := by
  refine ⟨?_, ?_, ?_⟩
  · intro k
    cases k with
    | zero => left; rfl
    | succ k =>
        right
        simp [appliedAfter, allWrites, changePasswordBatches, DbBatch.writes]
  · intro k
    cases k with
    | zero => left; rfl
    | succ k =>
        right
        simp [appliedAfter, allWrites, replaceHoursBatches, DbBatch.writes]
  · intro h
    have h1 := h 1
    simp [appliedAfter, allWrites, consentBatches, DbBatch.writes] at h1

/-! ## C4 — session rotation permanently invalidates the old id -/

/-- The rotated-session invariant: session ids are bounded by the
freshness counter, the retired id sits below the counter, and no stored
session carries it.  Preserved by every endpoint, so a rotated-away id
can never come back. -/
def sessionGone (db : Store) (sid : Nat) : Prop :=
  sessionIdsBounded db ∧ sid < db.nextSessionId ∧ findSession db sid = none

/-- Helper: searching a filtered list for an id finds nothing when the
unfiltered list had nothing. -/
theorem find?_id_none_of_filter (l : List Session) (p : Session → Bool) (sid : Nat)
    (hl : l.find? (fun s => s.id == sid) = none) :
    (l.filter p).find? (fun s => s.id == sid) = none := by
  rw [List.find?_eq_none] at hl ⊢
  intro s hs
  exact hl s (List.mem_filter.mp hs).1

/-- Helper: every store an endpoint produces differs from its input, as
far as the session table is concerned, by at most consing one fresh
session (bumping the counter) and filtering; all such steps preserve
`sessionGone`. -/
theorem sessionGone_of_shape (db db2 : Store) (sid : Nat) (h : sessionGone db sid)
    (hcase :
      (db2.sessions = db.sessions ∧ db2.nextSessionId = db.nextSessionId) ∨
      (∃ p, db2.sessions = db.sessions.filter p ∧
        db2.nextSessionId = db.nextSessionId) ∨
      (∃ uid now p, db2.sessions =
          ({ id := db.nextSessionId, userId := uid,
             expiresAt := now + sessionLifetimeMs } :: db.sessions).filter p ∧
        db2.nextSessionId = db.nextSessionId + 1) ∨
      (∃ uid now, db2.sessions =
          { id := db.nextSessionId, userId := uid,
            expiresAt := now + sessionLifetimeMs } :: db.sessions ∧
        db2.nextSessionId = db.nextSessionId + 1)) :
    sessionGone db2 sid := by
  obtain ⟨hb, hlt, habs⟩ := h
  unfold sessionGone sessionIdsBounded findSession at *
  rcases hcase with ⟨hs, hn⟩ | ⟨p, hs, hn⟩ | ⟨uid, now, p, hs, hn⟩ | ⟨uid, now, hs, hn⟩
  · refine ⟨?_, by omega, by rw [hs]; exact habs⟩
    intro s hsm
    rw [hs] at hsm
    rw [hn]
    exact hb s hsm
  · refine ⟨?_, by omega, ?_⟩
    · intro s hsm
      rw [hs] at hsm
      rw [hn]
      exact hb s (List.mem_filter.mp hsm).1
    · rw [hs]
      exact find?_id_none_of_filter _ _ _ habs
  · refine ⟨?_, by omega, ?_⟩
    · intro s hsm
      rw [hs] at hsm
      rw [hn]
      have hsm2 := (List.mem_filter.mp hsm).1
      rcases List.mem_cons.mp hsm2 with rfl | hsm3
      · show db.nextSessionId < db.nextSessionId + 1
        omega
      · have := hb s hsm3
        omega
    · rw [hs]
      apply find?_id_none_of_filter
      rw [List.find?_eq_none]
      intro s hsm
      rcases List.mem_cons.mp hsm with rfl | hsm2
      · simp only [beq_iff_eq]
        omega
      · have := List.find?_eq_none.mp habs s hsm2
        exact this
  · refine ⟨?_, by omega, ?_⟩
    · intro s hsm
      rw [hs] at hsm
      rw [hn]
      rcases List.mem_cons.mp hsm with rfl | hsm2
      · show db.nextSessionId < db.nextSessionId + 1
        omega
      · have := hb s hsm2
        omega
    · rw [hs, List.find?_eq_none]
      intro s hsm
      rcases List.mem_cons.mp hsm with rfl | hsm2
      · simp only [beq_iff_eq]
        omega
      · exact List.find?_eq_none.mp habs s hsm2

/-- Helper: the session-table shape of a successful `register` — one
fresh session consed on, counter bumped. -/
theorem register_ok_shape (db : Store) (input : RegisterInput) (now : Nat)
    (rs : AuthResult × Store) (h : register db input now = .ok rs) :
    ∃ uid, rs.2.sessions = { id := db.nextSessionId, userId := uid,
                             expiresAt := now + sessionLifetimeMs } :: db.sessions ∧
           rs.2.nextSessionId = db.nextSessionId + 1 := by
  unfold register at h
  cases hfe : findUserByEmail db (lowerAscii input.email) with
  | some u => rw [hfe] at h; simp at h
  | none =>
      rw [hfe] at h
      simp only [findRoleByName, createSession] at h
      cases hfr : db.roles.find? (fun r => r.name == "consumer") with
      | some r =>
          rw [hfr] at h
          simp only [Except.ok.injEq] at h
          refine ⟨db.nextUserId, ?_, ?_⟩ <;> rw [← h]
      | none =>
          rw [hfr] at h
          simp only [Except.ok.injEq] at h
          refine ⟨db.nextUserId, ?_, ?_⟩ <;> rw [← h]

/-- Helper: the session-table shape of a successful `login`. -/
theorem login_ok_shape (db : Store) (input : LoginInput) (now : Nat)
    (rs : AuthResult × Store) (h : login db input now = .ok rs) :
    ∃ uid, rs.2.sessions = { id := db.nextSessionId, userId := uid,
                             expiresAt := now + sessionLifetimeMs } :: db.sessions ∧
           rs.2.nextSessionId = db.nextSessionId + 1 := by
  unfold login at h
  cases hfe : findUserByEmail db (lowerAscii input.email) with
  | none => rw [hfe] at h; simp at h
  | some user =>
      rw [hfe] at h
      cases hact : user.isActive with
      | false => simp [hact] at h
      | true =>
          cases hver : verifyPassword input.password user.passwordHash with
          | false => simp [hact, hver] at h
          | true =>
              simp only [hact, hver, Bool.not_true, Bool.false_eq_true,
                if_false, createSession, Except.ok.injEq] at h
              refine ⟨user.id, ?_, ?_⟩ <;> rw [← h]

/-- Helper: a successful `changePassword` filters the session table and
keeps the counter. -/
theorem changePassword_ok_shape (db : Store) (uid : Nat)
    (input : ChangePasswordInput) (db2 : Store)
    (h : changePassword db uid input = .ok db2) :
    db2.sessions = db.sessions.filter (fun s => !(s.userId == uid)) ∧
    db2.nextSessionId = db.nextSessionId := by
  unfold changePassword at h
  cases hfu : findUserById db uid with
  | none => rw [hfu] at h; simp at h
  | some user =>
      rw [hfu] at h
      cases hver : verifyPassword input.currentPassword user.passwordHash with
      | false => simp [hver] at h
      | true =>
          simp only [hver, Bool.not_true, Bool.false_eq_true, if_false,
            Except.ok.injEq] at h
          exact ⟨by rw [← h], by rw [← h]⟩

/-- Helper: `refreshSession` either leaves the store alone or conses one
fresh session and filters out the old one. -/
theorem refresh_store_shape (db : Store) (sid now : Nat) :
    (refreshSession db sid now).2 = db ∨
    ∃ uid, (refreshSession db sid now).2.sessions =
        ({ id := db.nextSessionId, userId := uid,
           expiresAt := now + sessionLifetimeMs } :: db.sessions).filter
          (fun s => !(s.id == sid)) ∧
      (refreshSession db sid now).2.nextSessionId = db.nextSessionId + 1 := by
  unfold refreshSession
  cases h : findSession db sid with
  | none => left; rfl
  | some s =>
      by_cases hexp : s.expiresAt < now
      · left; simp [hexp]
      · right
        exact ⟨s.userId, by simp [hexp, createSession, deleteSession], by
          simp [hexp, createSession, deleteSession]⟩

/-- Helper: every endpoint's effect on the store fits the shapes of
`sessionGone_of_shape`. -/
theorem applyOp_shape (db : Store) (op : ApiOp) :
    ((applyOp db op).sessions = db.sessions ∧
      (applyOp db op).nextSessionId = db.nextSessionId) ∨
    (∃ p, (applyOp db op).sessions = db.sessions.filter p ∧
      (applyOp db op).nextSessionId = db.nextSessionId) ∨
    (∃ uid now p, (applyOp db op).sessions =
        ({ id := db.nextSessionId, userId := uid,
           expiresAt := now + sessionLifetimeMs } :: db.sessions).filter p ∧
      (applyOp db op).nextSessionId = db.nextSessionId + 1) ∨
    (∃ uid now, (applyOp db op).sessions =
        { id := db.nextSessionId, userId := uid,
          expiresAt := now + sessionLifetimeMs } :: db.sessions ∧
      (applyOp db op).nextSessionId = db.nextSessionId + 1) := by
  cases op with
  | opRegister input now =>
      simp only [applyOp]
      cases hreg : register db input now with
      | error e => exact Or.inl ⟨rfl, rfl⟩
      | ok rs =>
          obtain ⟨uid, hs, hn⟩ := register_ok_shape db input now rs hreg
          exact Or.inr (Or.inr (Or.inr ⟨uid, now, hs, hn⟩))
  | opLogin input now =>
      simp only [applyOp]
      cases hreg : login db input now with
      | error e => exact Or.inl ⟨rfl, rfl⟩
      | ok rs =>
          obtain ⟨uid, hs, hn⟩ := login_ok_shape db input now rs hreg
          exact Or.inr (Or.inr (Or.inr ⟨uid, now, hs, hn⟩))
  | opLogout sid =>
      simp only [applyOp, logout]
      cases hfs : findSession db sid with
      | none => exact Or.inl ⟨rfl, rfl⟩
      | some s => exact Or.inr (Or.inl ⟨_, rfl, rfl⟩)
  | opChangePassword uid input =>
      simp only [applyOp]
      cases hcp : changePassword db uid input with
      | error e => exact Or.inl ⟨rfl, rfl⟩
      | ok db2 =>
          obtain ⟨hs, hn⟩ := changePassword_ok_shape db uid input db2 hcp
          exact Or.inr (Or.inl ⟨_, hs, hn⟩)
  | opRefresh sid now =>
      simp only [applyOp]
      rcases refresh_store_shape db sid now with h | ⟨uid, hs, hn⟩
      · rw [h]
        exact Or.inl ⟨rfl, rfl⟩
      · exact Or.inr (Or.inr (Or.inl ⟨uid, now, _, hs, hn⟩))

/-- Helper: `sessionGone` is preserved by every sequence of endpoint
calls. -/
theorem sessionGone_applyOps (db : Store) (sid : Nat) (ops : List ApiOp)
    (h : sessionGone db sid) : sessionGone (applyOps db ops) sid := by
  induction ops generalizing db with
  | nil => exact h
  | cons op ops ih =>
      exact ih (applyOp db op) (sessionGone_of_shape db (applyOp db op) sid h
        (applyOp_shape db op))

/-- Helper: a store whose sessions all have ids different from `sid`
resolves `findSession sid` to none. -/
theorem findSession_eq_none_of (db : Store) (sid : Nat)
    (h : ∀ x ∈ db.sessions, x.id ≠ sid) : findSession db sid = none := by
  unfold findSession
  rw [List.find?_eq_none]
  intro x hx
  simp only [beq_iff_eq]
  exact h x hx

/-- Helper: in a session list with a fresh head surviving a filter that
removes an old id, looking the head id up finds the head. -/
theorem find?_filter_cons_self (a : Session) (l : List Session) (sold : Nat)
    (hne : a.id ≠ sold) :
    ((a :: l).filter (fun x => !(x.id == sold))).find? (fun x => x.id == a.id)
      = some a := by
  rw [List.filter_cons_of_pos (by simp [hne])]
  simp

/-- Helper: `authenticate` accepts when the session is found, unexpired,
and owned by an active user, and attaches the flattened identity. -/
theorem authenticate_ok_of (db : Store) (sid : Nat) (s2 : Session) (u : User)
    (now : Nat)
    (hf : findSession db sid = some s2)
    (hexp : ¬ s2.expiresAt < now)
    (hu : findUserById db s2.userId = some u)
    (hact : u.isActive = true) :
    authenticate db (some sid) now
      = .ok { id := u.id, email := u.email, sessionId := s2.id,
              roles := heldRolesOf db u.id } := by
  simp [authenticate, hf, hexp, hu, hact]

/-- C4 amended: when `refreshSession` succeeds for a stored session whose
owner is active, the old session id is permanently invalid for
`validate` — after any sequence of further endpoint calls, at any
instant, even before the old expiry — and the returned replacement
session is valid for `validate`.  (The activity hypothesis is needed
because refresh itself never checks `isActive`; the refresh route runs
`authenticate` first, which establishes it.) -/
theorem refresh_rotation_invalidates_old_session
    (db : Store) (s : Session) (u : User) (now : Nat)
    (r : AuthResult) (db2 : Store)
    (hwf : sessionIdsBounded db)
    (hs : findSession db s.id = some s)
    (hu : findUserById db s.userId = some u)
    (hact : u.isActive = true)
    (hr : refreshSession db s.id now = (some r, db2)) :
    (∀ ops : List ApiOp, ∀ later : Nat,
        authenticate (applyOps db2 ops) (some s.id) later
          = .error (.unauthorized "Session expired or invalid")) ∧
    authenticate db2 (some r.sessionId) now
      = .ok { id := u.id, email := u.email, sessionId := r.sessionId,
              roles := heldRolesOf db2 u.id } := by
  have hmem : s ∈ db.sessions := List.mem_of_find?_eq_some hs
  have hlt : s.id < db.nextSessionId := hwf s hmem
  unfold refreshSession at hr
  rw [hs] at hr
  by_cases hexp : s.expiresAt < now
  · simp [hexp] at hr
  · simp only [hexp, if_false, createSession, deleteSession, hu,
      Prod.mk.injEq, Option.some.injEq] at hr
    obtain ⟨hr1, hr2⟩ := hr
    subst hr1
    subst hr2
    have gone : sessionGone
        { db with
          sessions := ({ id := db.nextSessionId, userId := s.userId,
                         expiresAt := now + sessionLifetimeMs } :: db.sessions).filter
                        (fun x => !(x.id == s.id)),
          nextSessionId := db.nextSessionId + 1 } s.id := by
      refine ⟨?_, Nat.lt_succ_of_lt hlt, ?_⟩
      · intro x hx
        have hx2 : x ∈ (({ id := db.nextSessionId, userId := s.userId,
                            expiresAt := now + sessionLifetimeMs } : Session)
              :: db.sessions).filter (fun x => !(x.id == s.id)) := hx
        have hx3 := (List.mem_filter.mp hx2).1
        rcases List.mem_cons.mp hx3 with rfl | hx4
        · exact Nat.lt_succ_self _
        · exact Nat.lt_succ_of_lt (hwf x hx4)
      · apply findSession_eq_none_of
        intro x hx
        have hx2 : x ∈ (({ id := db.nextSessionId, userId := s.userId,
                            expiresAt := now + sessionLifetimeMs } : Session)
              :: db.sessions).filter (fun x => !(x.id == s.id)) := hx
        have hpx := (List.mem_filter.mp hx2).2
        simp only [Bool.not_eq_true', beq_eq_false_iff_ne] at hpx
        exact hpx
    constructor
    · intro ops later
      obtain ⟨-, -, habs⟩ := sessionGone_applyOps _ s.id ops gone
      simp [authenticate, habs]
    · have hne : (({ id := db.nextSessionId, userId := s.userId,
                      expiresAt := now + sessionLifetimeMs } : Session)).id ≠ s.id := by
        show db.nextSessionId ≠ s.id
        omega
      have hfind := find?_filter_cons_self
        { id := db.nextSessionId, userId := s.userId,
          expiresAt := now + sessionLifetimeMs } db.sessions s.id hne
      exact authenticate_ok_of _ db.nextSessionId
        { id := db.nextSessionId, userId := s.userId,
          expiresAt := now + sessionLifetimeMs } u now hfind
        (by show ¬ now + sessionLifetimeMs < now
            omega)
        hu hact

/-- C4 counterexample: for an unexpired session owned by a deactivated
user, refresh succeeds and returns a replacement, yet that replacement is
rejected by `validate` (the owner is inactive) — refuting the unqualified
claim that a successful refresh always returns a valid session. -/
theorem refresh_replacement_invalid_for_inactive_owner :
    (refreshSession inactiveUserDb 0 5).1
        = some { userId := 0, email := "gone@example.com", sessionId := 1,
                 expiresAt := 5 + sessionLifetimeMs } ∧
    authenticate (refreshSession inactiveUserDb 0 5).2 (some 1) 5
        = .error (.unauthorized "User account is deactivated") :=
  ⟨rfl, rfl⟩

/-- A store holding an active user owning session 0 (expiry 100), with
the id counter at 1. -/
def rotateDb : Store :=
  { users := [{ id := 0, email := "owner@example.com",
                passwordHash := hashPassword "pw",
                isActive := true, lastLoginAt := none }],
    profiles := [], sessions := [{ id := 0, userId := 0, expiresAt := 100 }],
    roles := [], roleAssignments := [], nextUserId := 1, nextSessionId := 1 }

/-- The store after refreshing session 0 of `rotateDb` at instant 5: the
old row is gone, the replacement (id 1) is present, the counter is 2. -/
def rotateDb2 : Store :=
  { users := [{ id := 0, email := "owner@example.com",
                passwordHash := hashPassword "pw",
                isActive := true, lastLoginAt := none }],
    profiles := [],
    sessions := [{ id := 1, userId := 0, expiresAt := 5 + sessionLifetimeMs }],
    roles := [], roleAssignments := [], nextUserId := 1, nextSessionId := 2 }

/-- Witness for C4's amended statement: after rotating session 0 of
`rotateDb`, the old id stays invalid even after a further login call and
even at instant 50 (long before the old expiry 100), while the
replacement session 1 validates. -/
theorem refresh_rotation_invalidates_old_session_witness :
    authenticate
        (applyOps rotateDb2
          [ApiOp.opLogin { email := "owner@example.com", password := "pw" } 7])
        (some 0) 50
      = .error (.unauthorized "Session expired or invalid") ∧
    authenticate rotateDb2 (some 1) 5
      = .ok { id := 0, email := "owner@example.com", sessionId := 1,
              roles := heldRolesOf rotateDb2 0 } := by
  have h := refresh_rotation_invalidates_old_session rotateDb
    { id := 0, userId := 0, expiresAt := 100 }
    { id := 0, email := "owner@example.com", passwordHash := hashPassword "pw",
      isActive := true, lastLoginAt := none } 5
    { userId := 0, email := "owner@example.com", sessionId := 1,
      expiresAt := 5 + sessionLifetimeMs }
    rotateDb2
    (by intro s hs
        simp [rotateDb] at hs
        subst hs
        decide)
    rfl rfl rfl rfl
  exact ⟨h.1 [ApiOp.opLogin { email := "owner@example.com", password := "pw" } 7] 50,
         h.2⟩

end Sabor
